import Mathlib

/-!
Verification development for the resin-wifi-connect network provisioning
daemon (sources: src/main.rs, src/errors.rs, src/network.rs, src/server.rs).

The Lean definitions below are a shallow embedding of the Rust sources.
External capabilities (the network-management service) are passed in as
oracle functions; fallible Rust operations returning `Result` are embedded
as `Except ErrorKind`; the Rust `unwrap` on SSID decoding is embedded as an
`Option` whose `none` case stands for a panic.  Loops that sleep between
iterations carry instrumentation counters for the number of device queries
and sleeps performed, so that retry counts and spacing can be stated.
-/

deriving instance DecidableEq for Except

namespace ResinWifi

/-- Error taxonomy of src/errors.rs.  The `error_chain!` macro there generates
one kind per named entry plus kinds for the foreign links (`Io`, `Recv`,
`SendNetworkCommand`, `Nix`), the linked `NetworkManager` error, and the
catch-all string message `Msg`.  Payload-carrying kinds keep their payloads. -/
inductive ErrorKind where
  | Msg (message : String)
  | Io
  | Recv
  | SendNetworkCommand
  | Nix
  | NetworkManager
  | PingUnsuccessful
  | RecvAccessPointSSIDs
  | RecvNetworkCommand
  | SendNetworkCommandConnect
  | SendNetworkCommandClear
  | SendNetworkCommandListAP
  | DeviceByInterface (interface : String)
  | NotAWiFiDevice (interface : String)
  | NoWiFiDevice
  | NoAccessPoints
  | DeleteAccessPoint
  | StartHTTPServer (address : String) (reason : String)
  | StartActiveNetworkManager
  | StartNetworkManager
  | NetworkManagerServiceState
  | BlockExitSignals
  | TrapExitSignals
  | RecvAccessPoints
  | ScanAccessPoints
deriving DecidableEq, Repr

/-- Payload-free tags of the error kinds: two errors are of the same failure
class exactly when their tags agree (src/errors.rs matches on the kind while
ignoring the payloads). -/
inductive ErrorTag where
  | Msg
  | Io
  | Recv
  | SendNetworkCommand
  | Nix
  | NetworkManager
  | PingUnsuccessful
  | RecvAccessPointSSIDs
  | RecvNetworkCommand
  | SendNetworkCommandConnect
  | SendNetworkCommandClear
  | SendNetworkCommandListAP
  | DeviceByInterface
  | NotAWiFiDevice
  | NoWiFiDevice
  | NoAccessPoints
  | DeleteAccessPoint
  | StartHTTPServer
  | StartActiveNetworkManager
  | StartNetworkManager
  | NetworkManagerServiceState
  | BlockExitSignals
  | TrapExitSignals
  | RecvAccessPoints
  | ScanAccessPoints
deriving DecidableEq, Repr, Fintype

/-- Tag of an error kind (forgets the payloads). -/
def ErrorKind.tag : ErrorKind → ErrorTag
  | .Msg _ => .Msg
  | .Io => .Io
  | .Recv => .Recv
  | .SendNetworkCommand => .SendNetworkCommand
  | .Nix => .Nix
  | .NetworkManager => .NetworkManager
  | .PingUnsuccessful => .PingUnsuccessful
  | .RecvAccessPointSSIDs => .RecvAccessPointSSIDs
  | .RecvNetworkCommand => .RecvNetworkCommand
  | .SendNetworkCommandConnect => .SendNetworkCommandConnect
  | .SendNetworkCommandClear => .SendNetworkCommandClear
  | .SendNetworkCommandListAP => .SendNetworkCommandListAP
  | .DeviceByInterface _ => .DeviceByInterface
  | .NotAWiFiDevice _ => .NotAWiFiDevice
  | .NoWiFiDevice => .NoWiFiDevice
  | .NoAccessPoints => .NoAccessPoints
  | .DeleteAccessPoint => .DeleteAccessPoint
  | .StartHTTPServer _ _ => .StartHTTPServer
  | .StartActiveNetworkManager => .StartActiveNetworkManager
  | .StartNetworkManager => .StartNetworkManager
  | .NetworkManagerServiceState => .NetworkManagerServiceState
  | .BlockExitSignals => .BlockExitSignals
  | .TrapExitSignals => .TrapExitSignals
  | .RecvAccessPoints => .RecvAccessPoints
  | .ScanAccessPoints => .ScanAccessPoints

/-- Process exit code for an error, from `exit_code` in src/errors.rs
(lines 99-123): the named kinds get explicit codes, everything else falls
into the `_ => 1` arm. -/
def exit_code : ErrorKind → Int
  | .RecvAccessPointSSIDs => 4
  | .RecvNetworkCommand => 7
  | .SendNetworkCommandConnect => 9
  | .DeviceByInterface _ => 10
  | .NotAWiFiDevice _ => 11
  | .NoWiFiDevice => 12
  | .NoAccessPoints => 13
  | .PingUnsuccessful => 14
  | .SendNetworkCommandClear => 15
  | .DeleteAccessPoint => 16
  | .StartHTTPServer _ _ => 17
  | .StartActiveNetworkManager => 18
  | .StartNetworkManager => 19
  | .NetworkManagerServiceState => 20
  | .BlockExitSignals => 21
  | .TrapExitSignals => 22
  | .RecvAccessPoints => 24
  | .ScanAccessPoints => 25
  | .SendNetworkCommandListAP => 26
  | _ => 1

/-- Exit code viewed at the tag level (the source match in src/errors.rs
inspects only the kind, never a payload). -/
def exitCodeOfTag : ErrorTag → Int
  | .RecvAccessPointSSIDs => 4
  | .RecvNetworkCommand => 7
  | .SendNetworkCommandConnect => 9
  | .DeviceByInterface => 10
  | .NotAWiFiDevice => 11
  | .NoWiFiDevice => 12
  | .NoAccessPoints => 13
  | .PingUnsuccessful => 14
  | .SendNetworkCommandClear => 15
  | .DeleteAccessPoint => 16
  | .StartHTTPServer => 17
  | .StartActiveNetworkManager => 18
  | .StartNetworkManager => 19
  | .NetworkManagerServiceState => 20
  | .BlockExitSignals => 21
  | .TrapExitSignals => 22
  | .RecvAccessPoints => 24
  | .ScanAccessPoints => 25
  | .SendNetworkCommandListAP => 26
  | _ => 1

/-- Error tags that code under src/ can surface to the exit channel:
every named kind is the target of a `chain_err`/`bail!` on a path reaching
`exit_tx` (src/network.rs, src/server.rs), and the linked `NetworkManager`
kind flows unchain-wrapped through the `?` operators on
`manager.get_devices()` (src/network.rs line 291) and
`self.device.disconnect()` (line 248).  The foreign-link kinds and `Msg`
never reach the exit channel from code under src/: every foreign error
there is wrapped by `chain_err` into a named kind first. -/
def surfacedErrorTags : List ErrorTag :=
  [ .NetworkManager
  , .PingUnsuccessful
  , .RecvAccessPointSSIDs
  , .RecvNetworkCommand
  , .SendNetworkCommandConnect
  , .SendNetworkCommandClear
  , .SendNetworkCommandListAP
  , .DeviceByInterface
  , .NotAWiFiDevice
  , .NoWiFiDevice
  , .NoAccessPoints
  , .DeleteAccessPoint
  , .StartHTTPServer
  , .StartActiveNetworkManager
  , .StartNetworkManager
  , .NetworkManagerServiceState
  , .BlockExitSignals
  , .TrapExitSignals
  , .RecvAccessPoints
  , .ScanAccessPoints ]

/-- Model of the SSID byte payload held by the external network_manager
crate: a byte sequence either decodes as UTF-8 text or does not.  The crate
operation `Ssid::as_str` is modeled by `Ssid.as_str` below; this repository
never inspects SSID bytes in any other way. -/
inductive Ssid where
  | utf8 (s : String)
  | invalid (bytes : List Nat)
deriving DecidableEq, Repr

/-- The `as_str` capability of the external crate: `some` when the bytes
decode as text, `none` (Rust `Err`) otherwise. -/
def Ssid.as_str : Ssid → Option String
  | .utf8 s => some s
  | .invalid _ => none

/-- Access point as used by src/network.rs: an SSID plus a signal strength
(the only two fields this repository reads). -/
structure AccessPoint where
  ssid : Ssid
  strength : Nat
deriving DecidableEq, Repr

/-- Connection states of the external network_manager crate. -/
inductive ConnectionState where
  | Unknown
  | Activating
  | Activated
  | Deactivating
  | Deactivated
deriving DecidableEq, Repr

/-- Connectivity classification of the external network_manager crate. -/
inductive Connectivity where
  | None
  | Portal
  | Limited
  | Full
  | Unknown
deriving DecidableEq, Repr

/-- The command type consumed by the handler, from `NetworkCommand` in
src/network.rs lines 17-23.  These five variants are all the variants the
enum defines. -/
inductive NetworkCommand where
  | Activate
  | Timeout
  | Exit
  | Connect (ssid : String) (passphrase : String)
  | Disconnect (ssid : String)
deriving DecidableEq, Repr

/-- Response type produced by the handler, from `NetworkCommandResponse` in
src/network.rs lines 25-27. -/
inductive NetworkCommandResponse where
  | AccessPointsSsids (ssids : List String)
deriving DecidableEq, Repr

/-- Variant name of a command value (the Rust discriminant name). -/
def NetworkCommand.variantName : NetworkCommand → String
  | .Activate => "Activate"
  | .Timeout => "Timeout"
  | .Exit => "Exit"
  | .Connect _ _ => "Connect"
  | .Disconnect _ => "Disconnect"

/-- Names of the variants the `NetworkCommand` enum defines in
src/network.rs lines 17-23. -/
def networkCommandVariantNames : List String :=
  ["Activate", "Timeout", "Exit", "Connect", "Disconnect"]

/-- Names of the `NetworkCommand` variants that the HTTP layer constructs
and sends in src/server.rs: `Scan` (line 155), `ListAP` (line 167),
`Connect` (line 208), `Disconnect` (line 224, with no ssid payload),
`CheckInternet` (line 236), `Clear` (line 262). -/
def serverSentVariantNames : List String :=
  ["Scan", "ListAP", "Connect", "Disconnect", "CheckInternet", "Clear"]

/-- The nine-variant command vocabulary the specification describes
(its section 3 data model). -/
def specCommandVariantNames : List String :=
  ["Activate", "Scan", "ListAP", "Connect", "Disconnect", "CheckInternet",
   "Clear", "Timeout", "Exit"]

/-- The SSID-decodability filter applied at discovery time:
`access_points.retain(|ap| ap.ssid().as_str().is_ok())` in
src/network.rs line 320. -/
def retainDecodableSsids (aps : List AccessPoint) : List AccessPoint :=
  aps.filter (fun ap => ap.ssid.as_str.isSome)

/-- Result of a run of the access-point discovery loop, instrumented with
the number of device queries performed and the number of one-second sleeps
performed (one sleep ends each loop iteration that does not return). -/
structure ScanTrace where
  result : Except ErrorKind (List AccessPoint)
  attempts : Nat
  sleeps : Nat
deriving DecidableEq, Repr

/-- Loop body of `get_access_points_impl` (src/network.rs lines 310-337),
recursing on the number of remaining allowed attempts; `attempt` counts the
queries already made.  Each round queries the device (propagating a device
error), filters out undecodable SSIDs, returns the filtered list when it is
non-empty, and otherwise sleeps one second and retries. -/
def get_access_points_go (query : Nat → Except ErrorKind (List AccessPoint)) :
    Nat → Nat → ScanTrace
  | attempt, 0 => { result := .ok [], attempts := attempt, sleeps := attempt }
  | attempt, remaining + 1 =>
    match query attempt with
    | .error e => { result := .error e, attempts := attempt + 1, sleeps := attempt }
    | .ok aps =>
      let kept := retainDecodableSsids aps
      if kept.isEmpty then
        get_access_points_go query (attempt + 1) remaining
      else
        { result := .ok kept, attempts := attempt + 1, sleeps := attempt }

/-- `get_access_points_impl` (src/network.rs lines 310-337):
`retries_allowed = 10`, starting from zero retries; exhausting every attempt
yields `Ok(vec![])`. -/
def get_access_points_impl (query : Nat → Except ErrorKind (List AccessPoint)) :
    ScanTrace :=
  get_access_points_go query 0 10

/-- `get_access_points` (src/network.rs lines 306-308): any error of the
implementation is chain-wrapped, making its kind `NoAccessPoints`. -/
def get_access_points (query : Nat → Except ErrorKind (List AccessPoint)) :
    ScanTrace :=
  let t := get_access_points_impl query
  match t.result with
  | .error _ => { t with result := .error ErrorKind.NoAccessPoints }
  | .ok _ => t

/-- Decidable helper: attempt `i` of `query` succeeds and yields a list whose
SSID-decodability filter leaves nothing. -/
def attemptYieldsEmpty (query : Nat → Except ErrorKind (List AccessPoint))
    (i : Nat) : Bool :=
  match query i with
  | .ok aps => (retainDecodableSsids aps).isEmpty
  | .error _ => false

/-- `get_access_points_ssids` (src/network.rs lines 339-344): maps
`ap.ssid().as_str().unwrap()` over the list; the `none` result models the
panic of `unwrap` on an undecodable SSID. -/
def get_access_points_ssids : List AccessPoint → Option (List String)
  | [] => some []
  | ap :: rest =>
    match ap.ssid.as_str, get_access_points_ssids rest with
    | some s, some tail => some (s :: tail)
    | _, _ => none

/-- `get_access_points_ssids_owned` (src/network.rs lines 346-351): same
traversal, with `to_string` on each borrowed SSID (the identity at this
level of modeling); `none` models the `unwrap` panic. -/
def get_access_points_ssids_owned : List AccessPoint → Option (List String)
  | [] => some []
  | ap :: rest =>
    match ap.ssid.as_str, get_access_points_ssids_owned rest with
    | some s, some tail => some (s :: tail)
    | _, _ => none

/-- `find_access_point` (src/network.rs lines 353-363): first access point
whose SSID decodes and equals the requested one. -/
def find_access_point (aps : List AccessPoint) (ssid : String) :
    Option AccessPoint :=
  match aps with
  | [] => none
  | ap :: rest =>
    match ap.ssid.as_str with
    | some s => if s = ssid then some ap else find_access_point rest ssid
    | none => find_access_point rest ssid

/-- Decidable helper: poll `i` of the connectivity oracle succeeds and
reports a status that is neither `Full` nor `Limited`. -/
def pollNotEstablished (get : Nat → Except ErrorKind Connectivity) (i : Nat) :
    Bool :=
  match get i with
  | .ok c => !(c = Connectivity.Full || c = Connectivity.Limited)
  | .error _ => false

/-- Result of a run of the connectivity poll loop, instrumented with the
number of connectivity queries performed (one one-second sleep separates
each pair of consecutive queries). -/
structure PollTrace where
  result : Except ErrorKind Bool
  polls : Nat
deriving DecidableEq, Repr

/-- Loop body of `wait_for_connectivity` (src/network.rs lines 365-396),
recursing on `remaining = timeout - total_time`: query connectivity
(propagating a query error through the `?` operator), return true on `Full`
or `Limited`, return false once the elapsed time reaches the timeout, and
otherwise sleep one second and poll again. -/
def wait_for_connectivity_go (get : Nat → Except ErrorKind Connectivity)
    (total : Nat) : Nat → PollTrace
  | 0 =>
    match get total with
    | .error e => { result := .error e, polls := total + 1 }
    | .ok c =>
      if c = Connectivity.Full ∨ c = Connectivity.Limited then
        { result := .ok true, polls := total + 1 }
      else
        { result := .ok false, polls := total + 1 }
  | remaining + 1 =>
    match get total with
    | .error e => { result := .error e, polls := total + 1 }
    | .ok c =>
      if c = Connectivity.Full ∨ c = Connectivity.Limited then
        { result := .ok true, polls := total + 1 }
      else
        wait_for_connectivity_go get (total + 1) remaining

/-- `wait_for_connectivity` (src/network.rs lines 365-396): the poll loop
starting at `total_time = 0`. -/
def wait_for_connectivity (get : Nat → Except ErrorKind Connectivity)
    (timeout : Nat) : PollTrace :=
  wait_for_connectivity_go get 0 timeout

/-- Capabilities the command handler consumes, as oracle functions:
`queries i` is the result of the i-th access-point query of the wifi device;
`auth ap passphrase` is `wifi_device.connect`, returning a connection handle
and the resulting state; `deleteConn h` is `connection.delete()` on handle
`h`; `connectivity t` is `manager.get_connectivity()` at second `t`;
`sendSsids` is `server_tx.send` of the SSID list; `disconnectDevice` is
`device.disconnect()`. -/
structure HandlerEnv where
  queries : Nat → Except ErrorKind (List AccessPoint)
  auth : AccessPoint → String → Except ErrorKind (Nat × ConnectionState)
  deleteConn : Nat → Except ErrorKind Unit
  connectivity : Nat → Except ErrorKind Connectivity
  sendSsids : List String → Except ErrorKind Unit
  disconnectDevice : Unit → Except ErrorKind Unit

/-- Mutable handler state relevant to the embedded operations, from the
`NetworkCommandHandler` struct (src/network.rs lines 29-38): the cached
access-point list and the `activated` flag, plus an instrumentation counter
of device queries consumed so far (so successive scans read successive
oracle entries). -/
structure HandlerState where
  access_points : List AccessPoint
  activated : Bool
  queryCount : Nat
deriving DecidableEq, Repr

/-- A scan as performed inside the handler: `get_access_points` reading the
device query oracle starting at index `q0`. -/
def scanFrom (env : HandlerEnv) (q0 : Nat) : ScanTrace :=
  get_access_points (fun i => env.queries (q0 + i))

/-- Outcome of one call of `NetworkCommandHandler::connect`, instrumented
with whether the authentication capability (`wifi_device.connect`) was
invoked and whether deletion of the just-created connection object was
attempted. -/
structure ConnectOutcome where
  result : Except ErrorKind Bool
  state : HandlerState
  authInvoked : Bool
  newConnDeleteAttempted : Bool
deriving DecidableEq, Repr

/-- Shared tail of `connect` (src/network.rs lines 242-244): the second
`self.access_points = get_access_points(&self.device)?` followed by
`Ok(false)`.  Reached on the vanished-network, authentication-failure and
non-activated branches. -/
def connectFinish (env : HandlerEnv) (st : HandlerState)
    (authInvoked newConnDeleteAttempted : Bool) : ConnectOutcome :=
  let t := scanFrom env st.queryCount
  match t.result with
  | .error e =>
    { result := .error e
      state := { st with queryCount := st.queryCount + t.attempts }
      authInvoked := authInvoked
      newConnDeleteAttempted := newConnDeleteAttempted }
  | .ok aps =>
    { result := .ok false
      state := { st with access_points := aps
                         queryCount := st.queryCount + t.attempts }
      authInvoked := authInvoked
      newConnDeleteAttempted := newConnDeleteAttempted }

/-- `NetworkCommandHandler::connect` (src/network.rs lines 200-245).
The initial `delete_connection_if_exists` touches only the stored-profile
state of the management service, which no modeled observable depends on, so
it contributes no state change here.  Then: refresh the cache (propagating a
scan error), look the SSID up in the refreshed cache; when absent, fall
through to `connectFinish`.  When present, invoke authentication: on
`Ok((connection, state))` with `state == Activated`, run the 20-second
connectivity poll purely for logging and return `Ok(true)` immediately
(without a further scan); on a non-activated state, attempt
`connection.delete()` (its failure only logged) and fall through; on an
authentication error, log and fall through. -/
def connect (env : HandlerEnv) (st : HandlerState)
    (ssid passphrase : String) : ConnectOutcome :=
  let t1 := scanFrom env st.queryCount
  match t1.result with
  | .error e =>
    { result := .error e
      state := { st with queryCount := st.queryCount + t1.attempts }
      authInvoked := false
      newConnDeleteAttempted := false }
  | .ok aps =>
    let st1 : HandlerState :=
      { st with access_points := aps
                queryCount := st.queryCount + t1.attempts }
    match find_access_point st1.access_points ssid with
    | none => connectFinish env st1 false false
    | some ap =>
      match env.auth ap passphrase with
      | .ok (conn, cstate) =>
        if cstate = ConnectionState.Activated then
          let _ := wait_for_connectivity env.connectivity 20
          { result := .ok true
            state := st1
            authInvoked := true
            newConnDeleteAttempted := false }
        else
          let _ := env.deleteConn conn
          connectFinish env st1 true true
      | .error _ => connectFinish env st1 true false

/-- `NetworkCommandHandler::activate` (src/network.rs lines 188-198):
set `activated`, extract the owned SSID list from the cached access points
(`none` models the `unwrap` panic on an undecodable SSID), and send it to
the server channel; a send failure is returned as an error.  (The chain
target `ErrorKind::SendAccessPointSSIDs` named at line 197 does not exist in
src/errors.rs, so the model keeps the underlying send error.) -/
def activate (env : HandlerEnv) (st : HandlerState) :
    Option (Except ErrorKind HandlerState) :=
  let st1 : HandlerState := { st with activated := true }
  match get_access_points_ssids_owned st1.access_points with
  | none => none
  | some ssids =>
    match env.sendSsids ssids with
    | .ok _ => some (.ok st1)
    | .error e => some (.error e)

/-- How one run of the handler loop ends: `ok` is the Rust `Ok(())` return,
`error` an `Err` propagated out of the loop by `?`, and `panicked` the
modeled `unwrap` panic inside `activate`. -/
inductive LoopResult where
  | ok
  | error (e : ErrorKind)
  | panicked
deriving DecidableEq, Repr

/-- `NetworkCommandHandler::run_loop` (src/network.rs lines 143-169) over an
explicit list of the commands the channel will deliver; an exhausted list
models the receive failure once every sender is gone, which
`receive_network_command` chains to `ErrorKind::RecvNetworkCommand`
(lines 171-180).  `Activate`, `Connect` and `Disconnect` propagate errors of
their sub-operations via `?`; `Timeout` returns `Ok(())` only when not
activated; `Exit` always returns `Ok(())`. -/
def run_loop (env : HandlerEnv) (st : HandlerState) :
    List NetworkCommand → LoopResult
  | [] => .error ErrorKind.RecvNetworkCommand
  | cmd :: rest =>
    match cmd with
    | .Activate =>
      match activate env st with
      | none => .panicked
      | some (.error e) => .error e
      | some (.ok st1) => run_loop env st1 rest
    | .Timeout =>
      if st.activated then run_loop env st rest else .ok
    | .Exit => .ok
    | .Connect ssid passphrase =>
      let out := connect env st ssid passphrase
      match out.result with
      | .error e => .error e
      | .ok _ => run_loop env out.state rest
    | .Disconnect _ =>
      match env.disconnectDevice () with
      | .error e => .error e
      | .ok _ => run_loop env st rest

/-! Concrete fixtures used by witnesses and counterexamples. -/

/-- A decodable access point named alpha. -/
def apAlpha : AccessPoint := { ssid := Ssid.utf8 "alpha", strength := 70 }

/-- A decodable access point named beta. -/
def apBeta : AccessPoint := { ssid := Ssid.utf8 "beta", strength := 50 }

/-- An access point whose SSID bytes do not decode as text. -/
def apRaw : AccessPoint := { ssid := Ssid.invalid [255, 0], strength := 10 }

/-- Device query oracle: empty on the first two attempts, then a list with
one undecodable and one decodable entry. -/
def queryC3 : Nat → Except ErrorKind (List AccessPoint) :=
  fun i => if i = 2 then .ok [apRaw, apAlpha] else .ok []

/-- Device query oracle that always reports a mixed list. -/
def queryC10 : Nat → Except ErrorKind (List AccessPoint) :=
  fun _ => .ok [apAlpha, apRaw, apBeta]

/-! Lemmas about the access-point discovery loop. -/

/-- The discovery loop makes at most `fuel` further queries past `attempt`. -/
theorem gap_go_attempts_le (query : Nat → Except ErrorKind (List AccessPoint)) :
    ∀ (fuel attempt : Nat),
      (get_access_points_go query attempt fuel).attempts ≤ attempt + fuel := by
  intro fuel
  induction fuel with
  | zero =>
    intro attempt
    simp [get_access_points_go]
  | succ f ih =>
    intro attempt
    cases hq : query attempt with
    | error e =>
      simp [get_access_points_go, hq]
    | ok aps =>
      by_cases hk : (retainDecodableSsids aps).isEmpty = true
      · have h1 := ih (attempt + 1)
        simp only [get_access_points_go, hq, hk, if_true]
        omega
      · have hk2 : (retainDecodableSsids aps).isEmpty = false := by
          simpa using hk
        simp [get_access_points_go, hq, hk2]

/-- If the first `j` attempts come back empty and attempt `j` yields a list
whose filtered form is non-empty, the loop returns that filtered list right
after attempt `j`, having slept once between consecutive queries. -/
theorem gap_go_success (query : Nat → Except ErrorKind (List AccessPoint)) :
    ∀ (fuel j attempt : Nat) (aps : List AccessPoint),
      j < fuel →
      (∀ i, i < j → attemptYieldsEmpty query (attempt + i) = true) →
      query (attempt + j) = .ok aps →
      retainDecodableSsids aps ≠ [] →
      get_access_points_go query attempt fuel =
        { result := .ok (retainDecodableSsids aps)
          attempts := attempt + j + 1
          sleeps := attempt + j } := by
  intro fuel
  induction fuel with
  | zero =>
    intro j attempt aps hj
    exact absurd hj (Nat.not_lt_zero j)
  | succ f ih =>
    intro j attempt aps hj hemp hq hne
    cases j with
    | zero =>
      have hq0 : query attempt = .ok aps := by simpa using hq
      have hk : (retainDecodableSsids aps).isEmpty = false := by
        cases hl : retainDecodableSsids aps with
        | nil => exact absurd hl hne
        | cons a l => simp
      simp [get_access_points_go, hq0, hk]
    | succ j' =>
      have h0 : attemptYieldsEmpty query attempt = true := by
        have h := hemp 0 (Nat.succ_pos j')
        simpa using h
      cases hq0 : query attempt with
      | error e =>
        rw [attemptYieldsEmpty, hq0] at h0
        exact absurd h0 (by simp)
      | ok aps0 =>
        have hk : (retainDecodableSsids aps0).isEmpty = true := by
          rw [attemptYieldsEmpty, hq0] at h0
          exact h0
        have step : get_access_points_go query attempt (f + 1) =
            get_access_points_go query (attempt + 1) f := by
          simp [get_access_points_go, hq0, hk]
        have hemp1 : ∀ i, i < j' → attemptYieldsEmpty query (attempt + 1 + i) = true := by
          intro i hi
          have h := hemp (i + 1) (by omega)
          have e : attempt + (i + 1) = attempt + 1 + i := by omega
          rwa [e] at h
        have hq1 : query (attempt + 1 + j') = .ok aps := by
          have e : attempt + (j' + 1) = attempt + 1 + j' := by omega
          rwa [e] at hq
        have hres := ih j' (attempt + 1) aps (by omega) hemp1 hq1 hne
        have e2 : attempt + 1 + j' = attempt + (j' + 1) := by omega
        rw [e2] at hres
        rw [step, hres]

/-- If every attempt in the window comes back empty, the loop exhausts its
fuel and returns the empty list, with one query and one sleep per round. -/
theorem gap_go_exhausted (query : Nat → Except ErrorKind (List AccessPoint)) :
    ∀ (fuel attempt : Nat),
      (∀ i, i < fuel → attemptYieldsEmpty query (attempt + i) = true) →
      get_access_points_go query attempt fuel =
        { result := .ok []
          attempts := attempt + fuel
          sleeps := attempt + fuel } := by
  intro fuel
  induction fuel with
  | zero =>
    intro attempt hemp
    simp [get_access_points_go]
  | succ f ih =>
    intro attempt hemp
    have h0 : attemptYieldsEmpty query attempt = true := by
      have h := hemp 0 (Nat.succ_pos f)
      simpa using h
    cases hq0 : query attempt with
    | error e =>
      rw [attemptYieldsEmpty, hq0] at h0
      exact absurd h0 (by simp)
    | ok aps0 =>
      have hk : (retainDecodableSsids aps0).isEmpty = true := by
        rw [attemptYieldsEmpty, hq0] at h0
        exact h0
      have step : get_access_points_go query attempt (f + 1) =
          get_access_points_go query (attempt + 1) f := by
        simp [get_access_points_go, hq0, hk]
      have hemp1 : ∀ i, i < f → attemptYieldsEmpty query (attempt + 1 + i) = true := by
        intro i hi
        have h := hemp (i + 1) (by omega)
        have e : attempt + (i + 1) = attempt + 1 + i := by omega
        rwa [e] at h
      have hres := ih (attempt + 1) hemp1
      have e2 : attempt + 1 + f = attempt + (f + 1) := by omega
      rw [e2] at hres
      rw [step, hres]

/-- The discovery loop reports an error only when some device query in its
window reported that error. -/
theorem gap_go_error (query : Nat → Except ErrorKind (List AccessPoint)) :
    ∀ (fuel attempt : Nat) (e : ErrorKind),
      (get_access_points_go query attempt fuel).result = .error e →
      ∃ i, i < fuel ∧ query (attempt + i) = .error e := by
  intro fuel
  induction fuel with
  | zero =>
    intro attempt e h
    simp [get_access_points_go] at h
  | succ f ih =>
    intro attempt e h
    cases hq0 : query attempt with
    | error e0 =>
      rw [get_access_points_go, hq0] at h
      simp at h
      exact ⟨0, Nat.succ_pos f, by simpa [h] using hq0⟩
    | ok aps0 =>
      by_cases hk : (retainDecodableSsids aps0).isEmpty = true
      · rw [get_access_points_go, hq0] at h
        simp only [hk, if_true] at h
        obtain ⟨i, hi, hqi⟩ := ih (attempt + 1) e h
        refine ⟨i + 1, by omega, ?_⟩
        have eeq : attempt + (i + 1) = attempt + 1 + i := by omega
        rwa [eeq]
      · have hk2 : (retainDecodableSsids aps0).isEmpty = false := by simpa using hk
        rw [get_access_points_go, hq0] at h
        simp [hk2] at h

/-- Every list the discovery loop returns successfully consists of access
points whose SSIDs decode as text. -/
theorem gap_go_ok_decodable (query : Nat → Except ErrorKind (List AccessPoint)) :
    ∀ (fuel attempt : Nat) (l : List AccessPoint),
      (get_access_points_go query attempt fuel).result = .ok l →
      ∀ ap, ap ∈ l → ap.ssid.as_str.isSome = true := by
  intro fuel
  induction fuel with
  | zero =>
    intro attempt l h
    simp [get_access_points_go] at h
    subst h
    intro ap hap
    simp at hap
  | succ f ih =>
    intro attempt l h
    cases hq0 : query attempt with
    | error e0 =>
      rw [get_access_points_go, hq0] at h
      simp at h
    | ok aps0 =>
      by_cases hk : (retainDecodableSsids aps0).isEmpty = true
      · rw [get_access_points_go, hq0] at h
        simp only [hk, if_true] at h
        exact ih (attempt + 1) l h
      · have hk2 : (retainDecodableSsids aps0).isEmpty = false := by simpa using hk
        rw [get_access_points_go, hq0] at h
        simp [hk2] at h
        intro ap hap
        rw [← h] at hap
        exact (List.mem_filter.mp hap).2

/-- C3: `get_access_points_impl` makes at most 10 device queries; each
attempt filters out entries with undecodable SSIDs while preserving the
relative order of the rest (the filtered list is a sublist of the raw one,
containing exactly the decodable entries); it returns the filtered list of
the first attempt on which it is non-empty, having queried once per elapsed
second (one one-second sleep separates consecutive queries); if all 10
attempts filter to empty it returns the empty list as a non-error result,
exactly 10 attempts made with 10 sleeps; and it reports an error only when
a device query itself reported that error. -/
theorem get_access_points_retry_policy
    (query : Nat → Except ErrorKind (List AccessPoint)) :
    (get_access_points_impl query).attempts ≤ 10 ∧
    (∀ aps : List AccessPoint, List.Sublist (retainDecodableSsids aps) aps ∧
      ∀ ap, ap ∈ retainDecodableSsids aps ↔
        ap ∈ aps ∧ ap.ssid.as_str.isSome = true) ∧
    (∀ j aps, j < 10 →
      (∀ i, i < j → attemptYieldsEmpty query i = true) →
      query j = .ok aps → retainDecodableSsids aps ≠ [] →
      (get_access_points_impl query).result = .ok (retainDecodableSsids aps) ∧
      (get_access_points_impl query).attempts = j + 1 ∧
      (get_access_points_impl query).sleeps = j) ∧
    ((∀ i, i < 10 → attemptYieldsEmpty query i = true) →
      (get_access_points_impl query).result = .ok [] ∧
      (get_access_points_impl query).attempts = 10 ∧
      (get_access_points_impl query).sleeps = 10) ∧
    (∀ e, (get_access_points_impl query).result = .error e →
      ∃ i, i < 10 ∧ query i = .error e) := by
  refine ⟨?_, ?_, ?_, ?_, ?_⟩
  · have h := gap_go_attempts_le query 10 0
    simpa [get_access_points_impl] using h
  · intro aps
    exact ⟨List.filter_sublist aps, fun ap => by
      simp [retainDecodableSsids, List.mem_filter]⟩
  · intro j aps hj hemp hq hne
    have hemp0 : ∀ i, i < j → attemptYieldsEmpty query (0 + i) = true := by
      intro i hi
      simpa [Nat.zero_add] using hemp i hi
    have hq0 : query (0 + j) = .ok aps := by simpa [Nat.zero_add] using hq
    have h := gap_go_success query 10 j 0 aps hj hemp0 hq0 hne
    rw [get_access_points_impl, h]
    simp
  · intro hemp
    have hemp0 : ∀ i, i < 10 → attemptYieldsEmpty query (0 + i) = true := by
      intro i hi
      simpa [Nat.zero_add] using hemp i hi
    have h := gap_go_exhausted query 10 0
    rw [get_access_points_impl, h hemp0]
    simp
  · intro e h
    have h2 := gap_go_error query 10 0 e (by simpa [get_access_points_impl] using h)
    obtain ⟨i, hi, hqi⟩ := h2
    exact ⟨i, hi, by simpa [Nat.zero_add] using hqi⟩

/-- Witness for the retry-policy theorem at a concrete oracle: empty lists
on attempts 0 and 1, a mixed list on attempt 2. -/
theorem get_access_points_retry_policy_witness :
    (get_access_points_impl queryC3).result = .ok [apAlpha] ∧
    (get_access_points_impl queryC3).attempts = 3 := by
  have h := (get_access_points_retry_policy queryC3).2.2.1 2 [apRaw, apAlpha]
    (by decide) (by decide) (by decide) (by decide)
  constructor
  · rw [h.1]
    decide
  · exact h.2.1

/-- Lists all of whose SSIDs decode admit a total SSID extraction, in order. -/
theorem ssids_extraction_of_decodable :
    ∀ l : List AccessPoint,
      (∀ ap, ap ∈ l → ap.ssid.as_str.isSome = true) →
      ∃ s : List String,
        get_access_points_ssids l = some s ∧
        get_access_points_ssids_owned l = some s ∧
        l.map (fun ap => ap.ssid.as_str) = s.map some := by
  intro l
  induction l with
  | nil =>
    intro _
    exact ⟨[], rfl, rfl, rfl⟩
  | cons ap rest ih =>
    intro h
    have hhead : ap.ssid.as_str.isSome = true := h ap (List.mem_cons_self ap rest)
    obtain ⟨str, hstr⟩ := Option.isSome_iff_exists.mp hhead
    obtain ⟨s, h1, h2, h3⟩ := ih (fun a ha => h a (List.mem_cons_of_mem ap ha))
    refine ⟨str :: s, ?_, ?_, ?_⟩
    · rw [get_access_points_ssids, hstr, h1]
    · rw [get_access_points_ssids_owned, hstr, h2]
    · simp [hstr, h3]

/-- C10: every access-point list produced by the discovery loop contains
only decodable SSIDs, so the unwrap-based extraction functions
`get_access_points_ssids` and `get_access_points_ssids_owned` never hit
their panic branch on it, and they return the decoded SSID strings in the
same order as the list. -/
theorem scan_ssid_unwraps_never_panic
    (query : Nat → Except ErrorKind (List AccessPoint)) (l : List AccessPoint)
    (h : (get_access_points_impl query).result = .ok l) :
    ∃ s : List String,
      get_access_points_ssids l = some s ∧
      get_access_points_ssids_owned l = some s ∧
      l.map (fun ap => ap.ssid.as_str) = s.map some := by
  have hdec := gap_go_ok_decodable query 10 0 l
    (by simpa [get_access_points_impl] using h)
  exact ssids_extraction_of_decodable l hdec

/-- Witness: the extraction theorem applied to the scan of a mixed raw list,
whose filtered result keeps alpha and beta. -/
theorem scan_ssid_unwraps_never_panic_witness :
    ∃ s : List String,
      get_access_points_ssids [apAlpha, apBeta] = some s ∧
      get_access_points_ssids_owned [apAlpha, apBeta] = some s ∧
      [apAlpha, apBeta].map (fun ap => ap.ssid.as_str) = s.map some :=
  scan_ssid_unwraps_never_panic queryC10 [apAlpha, apBeta] (by decide)

/-! Lemmas about the connectivity poll loop. -/

/-- If the first `j` polls succeed without establishment and poll `j`
(within the window) reports `Full` or `Limited`, the loop returns true right
after poll `j`. -/
theorem wfc_go_success (get : Nat → Except ErrorKind Connectivity) :
    ∀ (j remaining total : Nat) (c : Connectivity),
      j ≤ remaining →
      (∀ i, i < j → pollNotEstablished get (total + i) = true) →
      get (total + j) = .ok c →
      (c = Connectivity.Full ∨ c = Connectivity.Limited) →
      wait_for_connectivity_go get total remaining =
        { result := .ok true, polls := total + j + 1 } := by
  intro j
  induction j with
  | zero =>
    intro remaining total c _ _ hq hc
    have hq0 : get total = .ok c := by simpa using hq
    rcases hc with rfl | rfl <;>
      cases remaining <;> simp [wait_for_connectivity_go, hq0]
  | succ j' ih =>
    intro remaining total c hj hemp hq hc
    have h0 : pollNotEstablished get total = true := by
      have h := hemp 0 (Nat.succ_pos j')
      simpa using h
    cases hq0 : get total with
    | error e =>
      rw [pollNotEstablished, hq0] at h0
      exact absurd h0 (by simp)
    | ok c0 =>
      have hk : ¬(c0 = Connectivity.Full ∨ c0 = Connectivity.Limited) := by
        rw [pollNotEstablished, hq0] at h0
        simpa using h0
      rw [not_or] at hk
      obtain ⟨hk1, hk2⟩ := hk
      cases remaining with
      | zero => exact absurd hj (by omega)
      | succ r =>
        have step : wait_for_connectivity_go get total (r + 1) =
            wait_for_connectivity_go get (total + 1) r := by
          simp [wait_for_connectivity_go, hq0, hk1, hk2]
        have hemp1 : ∀ i, i < j' → pollNotEstablished get (total + 1 + i) = true := by
          intro i hi
          have h := hemp (i + 1) (by omega)
          have e : total + (i + 1) = total + 1 + i := by omega
          rwa [e] at h
        have hq1 : get (total + 1 + j') = .ok c := by
          have e : total + (j' + 1) = total + 1 + j' := by omega
          rwa [e] at hq
        have hres := ih r (total + 1) c (by omega) hemp1 hq1 hc
        have e2 : total + 1 + j' = total + (j' + 1) := by omega
        rw [e2] at hres
        rw [step, hres]

/-- If every poll in the window (timeout inclusive) succeeds without
establishment, the loop returns false after the final poll. -/
theorem wfc_go_exhausted (get : Nat → Except ErrorKind Connectivity) :
    ∀ (remaining total : Nat),
      (∀ i, i ≤ remaining → pollNotEstablished get (total + i) = true) →
      wait_for_connectivity_go get total remaining =
        { result := .ok false, polls := total + remaining + 1 } := by
  intro remaining
  induction remaining with
  | zero =>
    intro total hemp
    have h0 : pollNotEstablished get total = true := by
      have h := hemp 0 (Nat.le_refl 0)
      simpa using h
    cases hq0 : get total with
    | error e =>
      rw [pollNotEstablished, hq0] at h0
      exact absurd h0 (by simp)
    | ok c0 =>
      have hk : ¬(c0 = Connectivity.Full ∨ c0 = Connectivity.Limited) := by
        rw [pollNotEstablished, hq0] at h0
        simpa using h0
      rw [not_or] at hk
      obtain ⟨hk1, hk2⟩ := hk
      simp [wait_for_connectivity_go, hq0, hk1, hk2]
  | succ r ih =>
    intro total hemp
    have h0 : pollNotEstablished get total = true := by
      have h := hemp 0 (by omega)
      simpa using h
    cases hq0 : get total with
    | error e =>
      rw [pollNotEstablished, hq0] at h0
      exact absurd h0 (by simp)
    | ok c0 =>
      have hk : ¬(c0 = Connectivity.Full ∨ c0 = Connectivity.Limited) := by
        rw [pollNotEstablished, hq0] at h0
        simpa using h0
      rw [not_or] at hk
      obtain ⟨hk1, hk2⟩ := hk
      have step : wait_for_connectivity_go get total (r + 1) =
          wait_for_connectivity_go get (total + 1) r := by
        simp [wait_for_connectivity_go, hq0, hk1, hk2]
      have hemp1 : ∀ i, i ≤ r → pollNotEstablished get (total + 1 + i) = true := by
        intro i hi
        have h := hemp (i + 1) (by omega)
        have e : total + (i + 1) = total + 1 + i := by omega
        rwa [e] at h
      have hres := ih (total + 1) hemp1
      have e2 : total + 1 + r = total + (r + 1) := by omega
      rw [e2] at hres
      rw [step, hres]

/-- The poll loop reports an error only when some connectivity query in its
window reported that error. -/
theorem wfc_go_error (get : Nat → Except ErrorKind Connectivity) :
    ∀ (remaining total : Nat) (e : ErrorKind),
      (wait_for_connectivity_go get total remaining).result = .error e →
      ∃ i, i ≤ remaining ∧ get (total + i) = .error e := by
  intro remaining
  induction remaining with
  | zero =>
    intro total e h
    cases hq0 : get total with
    | error e0 =>
      rw [wait_for_connectivity_go, hq0] at h
      simp at h
      exact ⟨0, Nat.le_refl 0, by simpa [h] using hq0⟩
    | ok c0 =>
      by_cases hc : c0 = Connectivity.Full ∨ c0 = Connectivity.Limited
      · rcases hc with rfl | rfl <;> simp [wait_for_connectivity_go, hq0] at h
      · rw [not_or] at hc
        obtain ⟨hc1, hc2⟩ := hc
        simp [wait_for_connectivity_go, hq0, hc1, hc2] at h
  | succ r ih =>
    intro total e h
    cases hq0 : get total with
    | error e0 =>
      rw [wait_for_connectivity_go, hq0] at h
      simp at h
      exact ⟨0, by omega, by simpa [h] using hq0⟩
    | ok c0 =>
      by_cases hc : c0 = Connectivity.Full ∨ c0 = Connectivity.Limited
      · rcases hc with rfl | rfl <;> simp [wait_for_connectivity_go, hq0] at h
      · rw [not_or] at hc
        obtain ⟨hc1, hc2⟩ := hc
        have step : wait_for_connectivity_go get total (r + 1) =
            wait_for_connectivity_go get (total + 1) r := by
          simp [wait_for_connectivity_go, hq0, hc1, hc2]
        rw [step] at h
        obtain ⟨i, hi, hqi⟩ := ih (total + 1) e h
        refine ⟨i + 1, by omega, ?_⟩
        have eeq : total + (i + 1) = total + 1 + i := by omega
        rwa [eeq]

/-- C8 counterexample: the claim says `wait_for_connectivity` never returns
an error, but the source propagates a failure of
`manager.get_connectivity()` through the `?` operator (src/network.rs line
369).  With a connectivity oracle whose query fails, the 20-second poll used
by `connect` returns that error. -/
theorem wait_for_connectivity_error_counterexample :
    (wait_for_connectivity (fun _ => .error ErrorKind.NetworkManager) 20).result =
      .error ErrorKind.NetworkManager := by decide

/-- C8 (amended): `wait_for_connectivity` polls the connectivity status once
per second (one one-second sleep between consecutive polls); it returns true
right after the first poll whose status is `Full` or `Limited`; it returns
false after the poll at which elapsed time reaches the timeout when no poll
established connectivity; and it returns an error only when a connectivity
query itself fails — that error path (absent from the claim) is its sole
deviation from a pure soft-poll. -/
theorem wait_for_connectivity_spec (get : Nat → Except ErrorKind Connectivity)
    (timeout : Nat) :
    (∀ j c, j ≤ timeout →
      (∀ i, i < j → pollNotEstablished get i = true) →
      get j = .ok c → (c = Connectivity.Full ∨ c = Connectivity.Limited) →
      (wait_for_connectivity get timeout).result = .ok true ∧
      (wait_for_connectivity get timeout).polls = j + 1) ∧
    ((∀ i, i ≤ timeout → pollNotEstablished get i = true) →
      (wait_for_connectivity get timeout).result = .ok false ∧
      (wait_for_connectivity get timeout).polls = timeout + 1) ∧
    (∀ e, (wait_for_connectivity get timeout).result = .error e →
      ∃ i, i ≤ timeout ∧ get i = .error e) := by
  refine ⟨?_, ?_, ?_⟩
  · intro j c hj hemp hq hc
    have hemp0 : ∀ i, i < j → pollNotEstablished get (0 + i) = true := by
      intro i hi
      simpa [Nat.zero_add] using hemp i hi
    have hq0 : get (0 + j) = .ok c := by simpa [Nat.zero_add] using hq
    have h := wfc_go_success get j timeout 0 c hj hemp0 hq0 hc
    rw [wait_for_connectivity, h]
    simp
  · intro hemp
    have hemp0 : ∀ i, i ≤ timeout → pollNotEstablished get (0 + i) = true := by
      intro i hi
      simpa [Nat.zero_add] using hemp i hi
    have h := wfc_go_exhausted get timeout 0 hemp0
    rw [wait_for_connectivity, h]
    simp
  · intro e h
    obtain ⟨i, hi, hqi⟩ := wfc_go_error get timeout 0 e
      (by simpa [wait_for_connectivity] using h)
    exact ⟨i, hi, by simpa [Nat.zero_add] using hqi⟩

/-- Connectivity oracle for the poll witness: not established at second 0,
limited at second 1. -/
def getPollW : Nat → Except ErrorKind Connectivity :=
  fun i => if i = 1 then .ok Connectivity.Limited else .ok Connectivity.None

/-- Witness for the amended poll theorem: with the oracle above, the
20-second poll returns true after its second poll. -/
theorem wait_for_connectivity_spec_witness :
    (wait_for_connectivity getPollW 20).result = .ok true ∧
    (wait_for_connectivity getPollW 20).polls = 2 :=
  (wait_for_connectivity_spec getPollW 20).1 1 Connectivity.Limited
    (by decide) (by decide) (by decide) (by decide)

/-! Theorems about the connect algorithm. -/

/-- The scan that `connectFinish` performs: it starts where the pre-connect
refresh of `connect` left the device query stream. -/
def postScan (env : HandlerEnv) (st : HandlerState) : ScanTrace :=
  scanFrom env (st.queryCount + (scanFrom env st.queryCount).attempts)

/-- Handler state as it is at process start: empty cache, not activated,
no queries consumed. -/
def stIdle : HandlerState :=
  { access_points := [], activated := false, queryCount := 0 }

/-- Environment in which every query reports the alpha access point and
authentication reaches the activated state. -/
def envA : HandlerEnv :=
  { queries := fun _ => .ok [apAlpha]
    auth := fun _ _ => .ok (7, ConnectionState.Activated)
    deleteConn := fun _ => .ok ()
    connectivity := fun _ => .ok Connectivity.Full
    sendSsids := fun _ => .ok ()
    disconnectDevice := fun _ => .ok () }

/-- Environment in which authentication succeeds with a non-activated state
and deleting the fresh connection object fails. -/
def envB : HandlerEnv :=
  { queries := fun _ => .ok [apAlpha]
    auth := fun _ _ => .ok (7, ConnectionState.Deactivated)
    deleteConn := fun _ => .error ErrorKind.NetworkManager
    connectivity := fun _ => .ok Connectivity.None
    sendSsids := fun _ => .ok ()
    disconnectDevice := fun _ => .ok () }

/-- Environment whose first device query reports alpha and all later
queries report beta, with authentication reaching the activated state. -/
def envCex : HandlerEnv :=
  { queries := fun i => if i = 0 then .ok [apAlpha] else .ok [apBeta]
    auth := fun _ _ => .ok (7, ConnectionState.Activated)
    deleteConn := fun _ => .ok ()
    connectivity := fun _ => .ok Connectivity.Full
    sendSsids := fun _ => .ok ()
    disconnectDevice := fun _ => .ok () }

/-- Environment whose first device query reports alpha and whose later
queries fail, so the closing refresh inside `connect` errors. -/
def envC5 : HandlerEnv :=
  { queries := fun i =>
      if i = 0 then .ok [apAlpha] else .error ErrorKind.NetworkManager
    auth := fun _ _ => .ok (7, ConnectionState.Activated)
    deleteConn := fun _ => .ok ()
    connectivity := fun _ => .ok Connectivity.Full
    sendSsids := fun _ => .ok ()
    disconnectDevice := fun _ => .ok () }

/-- Environment like the previous one but whose authentication yields a
non-activated state. -/
def envC7 : HandlerEnv :=
  { queries := fun i =>
      if i = 0 then .ok [apAlpha] else .error ErrorKind.NetworkManager
    auth := fun _ _ => .ok (7, ConnectionState.Deactivated)
    deleteConn := fun _ => .ok ()
    connectivity := fun _ => .ok Connectivity.Full
    sendSsids := fun _ => .ok ()
    disconnectDevice := fun _ => .ok () }

/-- C5 counterexample: the pre-connect refresh succeeds and the requested
gamma network is absent from it, yet `connect` returns an error rather than
the claimed non-error false, because the closing cache refresh fails and
its error propagates through the `?` operator at src/network.rs line 242
(authentication is still never invoked). -/
theorem connect_vanished_error_counterexample :
    (scanFrom envC5 0).result = .ok [apAlpha] ∧
    find_access_point [apAlpha] "gamma" = none ∧
    (connect envC5 stIdle "gamma" "pw").result =
      .error ErrorKind.NoAccessPoints ∧
    (connect envC5 stIdle "gamma" "pw").authInvoked = false := by decide

/-- C7 counterexample: authentication succeeds with a non-activated state
and the just-created connection object is deleted, yet `connect` returns an
error rather than the claimed non-error false, because the closing cache
refresh fails and its error propagates (src/network.rs line 242). -/
theorem connect_non_activated_error_counterexample :
    envC7.auth apAlpha "pw" = .ok (7, ConnectionState.Deactivated) ∧
    (connect envC7 stIdle "alpha" "pw").newConnDeleteAttempted = true ∧
    (connect envC7 stIdle "alpha" "pw").result =
      .error ErrorKind.NoAccessPoints := by decide

/-- C5 (amended): when the pre-connect cache refresh yields a list without
the requested SSID, `connect` never invokes the authentication capability,
and provided the closing refresh succeeds it returns false as a non-error
result (a failing closing refresh propagates that scan error instead). -/
theorem connect_vanished_network (env : HandlerEnv) (st : HandlerState)
    (ssid passphrase : String) (aps : List AccessPoint)
    (h1 : (scanFrom env st.queryCount).result = .ok aps)
    (h2 : find_access_point aps ssid = none) :
    (connect env st ssid passphrase).authInvoked = false ∧
    (∀ aps2, (postScan env st).result = .ok aps2 →
      (connect env st ssid passphrase).result = .ok false) := by
  constructor
  · simp [connect, h1, h2, connectFinish]
    cases hpost : (postScan env st).result <;>
      simp_all [postScan, scanFrom]
  · intro aps2 hpost
    rw [postScan] at hpost
    simp [connect, h1, h2, connectFinish, hpost]

/-- C6: when the pre-connect refresh shows the requested SSID and
authentication succeeds with the `Activated` state, `connect` returns true
— for every environment, hence regardless of whether the subsequent
20-second connectivity poll reaches full, limited, or no connectivity, and
even when a connectivity query fails. -/
theorem connect_activated_success (env : HandlerEnv) (st : HandlerState)
    (ssid passphrase : String) (aps : List AccessPoint) (ap : AccessPoint)
    (conn : Nat)
    (h1 : (scanFrom env st.queryCount).result = .ok aps)
    (h2 : find_access_point aps ssid = some ap)
    (h3 : env.auth ap passphrase = .ok (conn, ConnectionState.Activated)) :
    (connect env st ssid passphrase).result = .ok true := by
  simp [connect, h1, h2, h3]

/-- C7 (amended): when authentication succeeds but the resulting state is
not `Activated`, `connect` attempts to delete the just-created connection
object — for every environment, hence also when that deletion fails, whose
error is never propagated — and provided the closing refresh succeeds it
returns false as a non-error result (a failing closing refresh propagates
that scan error instead). -/
theorem connect_non_activated (env : HandlerEnv) (st : HandlerState)
    (ssid passphrase : String) (aps : List AccessPoint) (ap : AccessPoint)
    (conn : Nat) (cstate : ConnectionState)
    (h1 : (scanFrom env st.queryCount).result = .ok aps)
    (h2 : find_access_point aps ssid = some ap)
    (h3 : env.auth ap passphrase = .ok (conn, cstate))
    (h4 : cstate ≠ ConnectionState.Activated) :
    (connect env st ssid passphrase).newConnDeleteAttempted = true ∧
    (∀ aps2, (postScan env st).result = .ok aps2 →
      (connect env st ssid passphrase).result = .ok false) := by
  constructor
  · simp [connect, h1, h2, h3, h4, connectFinish]
    cases hpost : (postScan env st).result <;>
      simp_all [postScan, scanFrom]
  · intro aps2 hpost
    rw [postScan] at hpost
    simp [connect, h1, h2, h3, h4, connectFinish, hpost]

/-- Witness: in an environment showing only alpha, a connect request for the
absent gamma network returns false without invoking authentication. -/
theorem connect_vanished_network_witness :
    (connect envA stIdle "gamma" "pw").authInvoked = false ∧
    (connect envA stIdle "gamma" "pw").result = .ok false := by
  have h := connect_vanished_network envA stIdle "gamma" "pw" [apAlpha]
    (by decide) (by decide)
  exact ⟨h.1, h.2 [apAlpha] (by decide)⟩

/-- Witness: connecting to the visible alpha network with activating
authentication returns true. -/
theorem connect_activated_success_witness :
    (connect envA stIdle "alpha" "pw").result = .ok true :=
  connect_activated_success envA stIdle "alpha" "pw" [apAlpha] apAlpha 7
    (by decide) (by decide) (by decide)

/-- Witness: with a non-activated authentication result and a failing
deletion, connect still attempts the deletion and returns false. -/
theorem connect_non_activated_witness :
    (connect envB stIdle "alpha" "pw").newConnDeleteAttempted = true ∧
    (connect envB stIdle "alpha" "pw").result = .ok false := by
  have h := connect_non_activated envB stIdle "alpha" "pw" [apAlpha] apAlpha 7
    ConnectionState.Deactivated (by decide) (by decide) (by decide) (by decide)
  exact ⟨h.1, h.2 [apAlpha] (by decide)⟩

/-- C1 counterexample: with a device whose first query reports alpha and
every later query reports beta, a successful activating connect returns
true having consumed exactly one scan, leaving the cached list at the
pre-authentication result alpha even though a scan taken at return time
would report beta — so on the activated-success branch the cache is not
refreshed by a new scan immediately before `connect` returns (the source
returns at src/network.rs line 224, before the refresh at line 242). -/
theorem connect_cache_refresh_counterexample :
    (connect envCex stIdle "alpha" "pw").result = .ok true ∧
    (connect envCex stIdle "alpha" "pw").state.queryCount = 1 ∧
    (connect envCex stIdle "alpha" "pw").state.access_points = [apAlpha] ∧
    (scanFrom envCex 1).result = .ok [apBeta] ∧
    apAlpha ≠ apBeta := by decide

/-- C1 (amended): on the vanished-network, authentication-failure and
non-activated branches, the cache is refreshed by a new scan immediately
before `connect` returns (the cache ends at the closing scan result and
both scans are consumed); on the activated-success branch `connect` returns
with the cache left at the pre-connect refresh, consuming no second scan. -/
theorem connect_cache_refresh (env : HandlerEnv) (st : HandlerState)
    (ssid passphrase : String) :
    (∀ aps ap conn,
      (scanFrom env st.queryCount).result = .ok aps →
      find_access_point aps ssid = some ap →
      env.auth ap passphrase = .ok (conn, ConnectionState.Activated) →
      (connect env st ssid passphrase).state.access_points = aps ∧
      (connect env st ssid passphrase).state.queryCount =
        st.queryCount + (scanFrom env st.queryCount).attempts) ∧
    (∀ aps aps2,
      (scanFrom env st.queryCount).result = .ok aps →
      find_access_point aps ssid = none →
      (postScan env st).result = .ok aps2 →
      (connect env st ssid passphrase).state.access_points = aps2 ∧
      (connect env st ssid passphrase).state.queryCount =
        st.queryCount + (scanFrom env st.queryCount).attempts +
          (postScan env st).attempts) ∧
    (∀ aps ap e aps2,
      (scanFrom env st.queryCount).result = .ok aps →
      find_access_point aps ssid = some ap →
      env.auth ap passphrase = .error e →
      (postScan env st).result = .ok aps2 →
      (connect env st ssid passphrase).state.access_points = aps2 ∧
      (connect env st ssid passphrase).state.queryCount =
        st.queryCount + (scanFrom env st.queryCount).attempts +
          (postScan env st).attempts) ∧
    (∀ aps ap conn cstate aps2,
      (scanFrom env st.queryCount).result = .ok aps →
      find_access_point aps ssid = some ap →
      env.auth ap passphrase = .ok (conn, cstate) →
      cstate ≠ ConnectionState.Activated →
      (postScan env st).result = .ok aps2 →
      (connect env st ssid passphrase).state.access_points = aps2 ∧
      (connect env st ssid passphrase).state.queryCount =
        st.queryCount + (scanFrom env st.queryCount).attempts +
          (postScan env st).attempts) := by
  refine ⟨?_, ?_, ?_, ?_⟩
  · intro aps ap conn h1 h2 h3
    constructor <;> simp [connect, h1, h2, h3]
  · intro aps aps2 h1 h2 hpost
    rw [postScan] at hpost
    constructor <;> simp [connect, h1, h2, connectFinish, hpost, postScan]
  · intro aps ap e aps2 h1 h2 h3 hpost
    rw [postScan] at hpost
    constructor <;> simp [connect, h1, h2, h3, connectFinish, hpost, postScan]
  · intro aps ap conn cstate aps2 h1 h2 h3 h4 hpost
    rw [postScan] at hpost
    constructor <;> simp [connect, h1, h2, h3, h4, connectFinish, hpost, postScan]

/-- Witness for the amended cache-refresh theorem: on the vanished-network
branch with the alpha environment, the cache ends at the closing scan and
both scans (one query each) were consumed. -/
theorem connect_cache_refresh_witness :
    (connect envA stIdle "gamma" "pw").state.access_points = [apAlpha] ∧
    (connect envA stIdle "gamma" "pw").state.queryCount = 2 := by
  have h := (connect_cache_refresh envA stIdle "gamma" "pw").2.1 [apAlpha]
    [apAlpha] (by decide) (by decide) (by decide)
  constructor
  · exact h.1
  · rw [h.2]
    decide

/-! Theorems about the handler loop, the command vocabulary and the exit
codes. -/

/-- Without an `Exit` or `Timeout` command in the stream, the handler loop
never returns its normal `Ok(())` result: it either errors on a
sub-operation, panics in `activate`, or runs out of senders. -/
theorem run_loop_no_normal_exit (env : HandlerEnv) :
    ∀ (cmds : List NetworkCommand) (st : HandlerState),
      (∀ c ∈ cmds, c ≠ NetworkCommand.Exit ∧ c ≠ NetworkCommand.Timeout) →
      run_loop env st cmds ≠ LoopResult.ok := by
  intro cmds
  induction cmds with
  | nil =>
    intro st _
    simp [run_loop]
  | cons c rest ih =>
    intro st h
    obtain ⟨hne, hnt⟩ := h c (List.mem_cons_self c rest)
    have hrest : ∀ c2 ∈ rest, c2 ≠ NetworkCommand.Exit ∧ c2 ≠ NetworkCommand.Timeout :=
      fun c2 hm => h c2 (List.mem_cons_of_mem c hm)
    cases c with
    | Activate =>
      cases ha : activate env st with
      | none => simp [run_loop, ha]
      | some r =>
        cases r with
        | error e => simp [run_loop, ha]
        | ok st1 =>
          simpa [run_loop, ha] using ih st1 hrest
    | Timeout => exact absurd rfl hnt
    | Exit => exact absurd rfl hne
    | Connect ssid passphrase =>
      cases hr : (connect env st ssid passphrase).result with
      | error e => simp [run_loop, hr]
      | ok b =>
        simpa [run_loop, hr] using ih (connect env st ssid passphrase).state hrest
    | Disconnect ssid =>
      cases hd : env.disconnectDevice () with
      | error e => simp [run_loop, hd]
      | ok u => simpa [run_loop, hd] using ih st hrest

/-- C4: processing `Timeout` while not activated returns the loop's normal
result immediately; processing `Timeout` while activated changes nothing
and continues with the rest of the stream; processing `Exit` terminates
normally regardless of the flag; and a stream without `Exit` or `Timeout`
can never terminate the loop normally — every other ending is an error of a
sub-operation (or the modeled `activate` panic). -/
theorem run_loop_terminal_conditions (env : HandlerEnv) (st : HandlerState)
    (rest cmds : List NetworkCommand) :
    (st.activated = false →
      run_loop env st (NetworkCommand.Timeout :: rest) = LoopResult.ok) ∧
    (st.activated = true →
      run_loop env st (NetworkCommand.Timeout :: rest) = run_loop env st rest) ∧
    run_loop env st (NetworkCommand.Exit :: rest) = LoopResult.ok ∧
    ((∀ c ∈ cmds, c ≠ NetworkCommand.Exit ∧ c ≠ NetworkCommand.Timeout) →
      run_loop env st cmds ≠ LoopResult.ok) := by
  refine ⟨?_, ?_, ?_, ?_⟩
  · intro h
    simp [run_loop, h]
  · intro h
    simp [run_loop, h]
  · simp [run_loop]
  · exact run_loop_no_normal_exit env cmds st

/-- Witness for the loop terminal conditions: `Exit` terminates normally,
`Timeout` terminates the non-activated idle handler, and a lone `Activate`
cannot terminate the loop normally. -/
theorem run_loop_terminal_conditions_witness :
    run_loop envA stIdle [NetworkCommand.Exit] = LoopResult.ok ∧
    run_loop envA stIdle [NetworkCommand.Timeout] = LoopResult.ok ∧
    run_loop envA stIdle [NetworkCommand.Activate] ≠ LoopResult.ok := by
  refine ⟨(run_loop_terminal_conditions envA stIdle [] []).2.2.1, ?_, ?_⟩
  · exact (run_loop_terminal_conditions envA stIdle [] []).1 rfl
  · exact (run_loop_terminal_conditions envA stIdle []
      [NetworkCommand.Activate]).2.2.2 (by decide)

/-- C2 (documenting the code bug): the `NetworkCommand` enum of
src/network.rs defines exactly the five variants `Activate`, `Timeout`,
`Exit`, `Connect`, `Disconnect`, while the HTTP layer in src/server.rs
sends the variant names `Scan`, `ListAP`, `CheckInternet` and `Clear`,
none of which is a variant of that type — the two command vocabularies of
the repository disagree, so the claimed nine-variant union does not exist
in the code. -/
theorem network_command_vocabulary_mismatch :
    (∀ c : NetworkCommand, c.variantName ∈ networkCommandVariantNames) ∧
    ("Scan" ∈ serverSentVariantNames ∧ "Scan" ∉ networkCommandVariantNames) ∧
    ("ListAP" ∈ serverSentVariantNames ∧
      "ListAP" ∉ networkCommandVariantNames) ∧
    ("CheckInternet" ∈ serverSentVariantNames ∧
      "CheckInternet" ∉ networkCommandVariantNames) ∧
    ("Clear" ∈ serverSentVariantNames ∧
      "Clear" ∉ networkCommandVariantNames) ∧
    networkCommandVariantNames ≠ specCommandVariantNames := by
  refine ⟨?_, by decide, by decide, by decide, by decide, by decide⟩
  intro c
  cases c <;> simp [NetworkCommand.variantName, networkCommandVariantNames]

/-- The exit-code match of src/errors.rs never inspects a payload, so the
code of an error is a function of its tag. -/
theorem exit_code_eq_tag_code (k : ErrorKind) :
    exit_code k = exitCodeOfTag k.tag := by
  cases k <;> rfl

/-- C9: on the error tags that code under src/ can surface to the exit
channel (every named kind of the taxonomy, plus the linked NetworkManager
kind that alone reaches the channel through the catch-all arm), the
exit-code function assigns pairwise distinct integer codes. -/
theorem exit_code_injective_on_surfaced :
    ∀ k1 k2 : ErrorKind,
      k1.tag ∈ surfacedErrorTags → k2.tag ∈ surfacedErrorTags →
      k1.tag ≠ k2.tag → exit_code k1 ≠ exit_code k2 := by
  have htag : ∀ t1 t2 : ErrorTag,
      t1 ∈ surfacedErrorTags → t2 ∈ surfacedErrorTags →
      t1 ≠ t2 → exitCodeOfTag t1 ≠ exitCodeOfTag t2 := by decide
  intro k1 k2 h1 h2 hne
  rw [exit_code_eq_tag_code k1, exit_code_eq_tag_code k2]
  exact htag k1.tag k2.tag h1 h2 hne

/-- Witness: two surfaceable failure classes, receiving a network command
failing and no wifi device present, get distinct exit codes. -/
theorem exit_code_injective_on_surfaced_witness :
    exit_code ErrorKind.RecvNetworkCommand ≠ exit_code ErrorKind.NoWiFiDevice :=
  exit_code_injective_on_surfaced ErrorKind.RecvNetworkCommand
    ErrorKind.NoWiFiDevice (by decide) (by decide) (by decide)

end ResinWifi
